import Mathlib

/-!
Shallow embedding of the `premiumize` Python client library
(`src/premiumize/premiumize.py` and `src/premiumize/filetypes.py`).

JSON values are modelled by the inductive `Json`; Python dictionaries by
insertion-ordered association lists (`Dict`) with Python's update-or-append
assignment semantics (`dictInsert`).  Python exceptions become the `PyError`
sum (`KeyError`, `AttributeError`, `TypeError`, and `PremiumizeException`);
each fallible computation returns `Except PyError`.

The HTTP transport is external: every client method is embedded as a function
that also takes the parsed JSON body the server would answer with, and returns
the list of HTTP requests actually issued (each a `Request` holding the full
URL and the final query-parameter dictionary) together with the method's
result.  A method that raises before reaching `requests.get` issues `[]`.
-/

/-- JSON values as decoded by `json.loads` (numbers restricted to integers;
the API ids and status fields in play are strings and integers). -/
inductive Json where
  | null : Json
  | bool (b : Bool) : Json
  | num (n : Int) : Json
  | str (s : String) : Json
  | arr (elems : List Json) : Json
  | obj (fields : List (String × Json)) : Json
deriving Repr

mutual

/-- Structural equality test on `Json` (Python `==` between the values that
occur here: equal only when same shape and same contents). -/
def Json.beq : Json → Json → Bool
  | .null, .null => true
  | .bool a, .bool b => a == b
  | .num a, .num b => a == b
  | .str a, .str b => a == b
  | .arr a, .arr b => Json.beqList a b
  | .obj a, .obj b => Json.beqFields a b
  | _, _ => false

/-- Elementwise equality of JSON arrays. -/
def Json.beqList : List Json → List Json → Bool
  | [], [] => true
  | a :: as, b :: bs => Json.beq a b && Json.beqList as bs
  | _, _ => false

/-- Elementwise equality of JSON object field lists. -/
def Json.beqFields : List (String × Json) → List (String × Json) → Bool
  | [], [] => true
  | (ka, va) :: as, (kb, vb) :: bs => ka == kb && Json.beq va vb && Json.beqFields as bs
  | _, _ => false

end

instance : BEq Json := ⟨Json.beq⟩

mutual

theorem Json.beq_iff : ∀ a b : Json, Json.beq a b = true ↔ a = b
  | .null, b => by cases b <;> simp [Json.beq]
  | .bool x, b => by cases b <;> simp [Json.beq]
  | .num x, b => by cases b <;> simp [Json.beq]
  | .str x, b => by cases b <;> simp [Json.beq]
  | .arr xs, b => by
      cases b <;> simp [Json.beq]
      exact Json.beqList_iff xs _
  | .obj xs, b => by
      cases b <;> simp [Json.beq]
      exact Json.beqFields_iff xs _

theorem Json.beqList_iff : ∀ a b : List Json, Json.beqList a b = true ↔ a = b
  | [], b => by cases b <;> simp [Json.beqList]
  | x :: xs, b => by
      cases b with
      | nil => simp [Json.beqList]
      | cons y ys =>
          simp [Json.beqList, Json.beq_iff x y, Json.beqList_iff xs ys]

theorem Json.beqFields_iff :
    ∀ a b : List (String × Json), Json.beqFields a b = true ↔ a = b
  | [], b => by cases b <;> simp [Json.beqFields]
  | (k, v) :: xs, b => by
      cases b with
      | nil => simp [Json.beqFields]
      | cons y ys =>
          obtain ⟨k2, v2⟩ := y
          simp [Json.beqFields, Json.beq_iff v v2, Json.beqFields_iff xs ys,
            and_assoc, Prod.ext_iff]

end

instance : DecidableEq Json := fun a b =>
  decidable_of_iff (Json.beq a b = true) (Json.beq_iff a b)

/-- A single-quote character, used by Python `repr` of strings. -/
def squote : String := String.singleton (Char.ofNat 39)

mutual

/-- Python `repr` of a JSON-shaped value (used inside containers by `str`).
String escaping/quote selection is simplified to plain single quotes. -/
def Json.pyRepr : Json → String
  | .null => "None"
  | .bool b => if b then "True" else "False"
  | .num n => toString n
  | .str s => squote ++ s ++ squote
  | .arr es => "[" ++ Json.pyReprElems es ++ "]"
  | .obj fs => "\x7b" ++ Json.pyReprFields fs ++ "\x7d"

/-- Comma-separated `repr` of list elements. -/
def Json.pyReprElems : List Json → String
  | [] => ""
  | [e] => Json.pyRepr e
  | e :: rest => Json.pyRepr e ++ ", " ++ Json.pyReprElems rest

/-- Comma-separated `repr` of dict entries. -/
def Json.pyReprFields : List (String × Json) → String
  | [] => ""
  | [(k, v)] => squote ++ k ++ squote ++ ": " ++ Json.pyRepr v
  | (k, v) :: rest =>
      squote ++ k ++ squote ++ ": " ++ Json.pyRepr v ++ ", " ++ Json.pyReprFields rest

end

/-- Python `str()` of a JSON-shaped value: identity on strings, `repr`-style
rendering otherwise (as in `str(i_item.id)` in `move_item`). -/
def Json.pyStr : Json → String
  | .str s => s
  | j => Json.pyRepr j

/-- Python `str()` of an optional value, `None` rendered as `"None"`
(as in `str(folder_id)` when `folder_id` was not given). -/
def pyStrOpt : Option Json → String
  | none => "None"
  | some j => j.pyStr

/-- A Python dictionary with `String` keys, in insertion order. -/
abbrev Dict := List (String × Json)

/-- Python `d[k] = v`: update the existing entry in place, else append. -/
def dictInsert : Dict → String → Json → Dict
  | [], k, v => [(k, v)]
  | (k', v') :: rest, k, v =>
      if k' = k then (k, v) :: rest else (k', v') :: dictInsert rest k v

/-- Lookup of the first entry with key `k` (the only entry for a dict built
by `dictInsert`, whose keys are unique). -/
def dictGet? (d : Dict) (k : String) : Option Json :=
  (d.find? (fun p => p.1 = k)).map Prod.snd

/-- The key list of a dictionary. -/
def dictKeys (d : Dict) : List String := d.map Prod.fst

/-- Python exceptions that the embedded code can raise.  `premiumizeError`
is `PremiumizeException`; its argument is the value passed to the
constructor.  Modelled from the spec: `exceptions.py` is not under `src/`;
per §7 the API error is a single error kind carrying the server-supplied
message. -/
inductive PyError where
  | keyError (key : String) : PyError
  | attributeError (name : String) : PyError
  | typeError : PyError
  | premiumizeError (arg : Json) : PyError
deriving Repr, DecidableEq

/-- Python `d[k]` on a dictionary: the value, or `KeyError` when absent. -/
def dictGet (d : Dict) (k : String) : Except PyError Json :=
  match dictGet? d k with
  | some v => .ok v
  | none => .error (.keyError k)

/-- Python subscript `j[k]` on an arbitrary JSON value: key lookup on
objects, `TypeError` on anything that is not a mapping. -/
def jsonSubscript (j : Json) (k : String) : Except PyError Json :=
  match j with
  | .obj fs => dictGet fs k
  | _ => .error .typeError

/-- Python `"..." + x`: string concatenation, `TypeError` unless `x` is a
string. -/
def pyAddStr (a : String) (x : Json) : Except PyError String :=
  match x with
  | .str s => .ok (a ++ s)
  | _ => .error .typeError

/-- One issued HTTP GET: the full URL (`base_url + endpoint`) and the final
query-parameter dictionary (credentials merged with the method's params). -/
structure Request where
  url : String
  params : Dict
deriving Repr, DecidableEq

/-- `class Premiumize`: the client context holding the credentials and the
base URL fixed in `__init__`. -/
structure Premiumize where
  user_id : String
  user_pin : String
  base_url : String
deriving Repr, DecidableEq

/-- The default `base_url` parameter of `Premiumize.__init__`. -/
def defaultBaseUrl : String := "https://www.premiumize.me/api"

/-- The credential parameters, as the dict literal at the top of
`Premiumize._request`. -/
def Premiumize.creds (c : Premiumize) : Dict :=
  [("customer_id", Json.str c.user_id), ("pin", Json.str c.user_pin)]

/-- The loop `for key in params: request_params[key] = params[key]` in
`_request`, starting from the credentials dict. -/
def buildRequestParams (c : Premiumize) (params : Dict) : Dict :=
  params.foldl (fun acc p => dictInsert acc p.1 p.2) c.creds

/-- `Premiumize._request`: build the merged parameter dict, issue the GET to
`base_url + endpoint`, and hand back the parsed JSON body.  The transport is
external, so the parsed body `resp` is an input; the issued `Request` is
returned so callers can record it in their trace. -/
def Premiumize.request (c : Premiumize) (endpoint : String) (params : Dict)
    (resp : Dict) : Request × Dict :=
  (⟨c.base_url ++ endpoint, buildRequestParams c params⟩, resp)

/-- `class PremiumizeFile` (filetypes.py): a bag of attributes set in
`__dict__`. -/
structure PremiumizeFile where
  attrs : Dict
deriving Repr, DecidableEq

/-- `PremiumizeFile.__init__`: `for key in data: self.__dict__[key] = data[key]`
starting from an empty attribute dict. -/
def PremiumizeFile.init (data : Dict) : PremiumizeFile :=
  ⟨data.foldl (fun acc p => dictInsert acc p.1 p.2) []⟩

/-- Python attribute access `f.name`: the attribute's value, or
`AttributeError` when the object has no such attribute. -/
def PremiumizeFile.getattr (f : PremiumizeFile) (name : String) :
    Except PyError Json :=
  match dictGet? f.attrs name with
  | some v => .ok v
  | none => .error (.attributeError name)

instance {ε α : Type} [DecidableEq ε] [DecidableEq α] : DecidableEq (Except ε α) :=
  fun a b =>
    match a, b with
    | .ok x, .ok y => decidable_of_iff (x = y) (by simp)
    | .error x, .error y => decidable_of_iff (x = y) (by simp)
    | .ok _, .error _ => isFalse (by simp)
    | .error _, .ok _ => isFalse (by simp)

/-- The shared `status == "error"` failure check used by the delete / rename /
paste / item / torrent / transfer methods:
`if req_res["status"] == "error": raise PremiumizeException(pre + req_res["message"])`. -/
def checkErrorStatus (req_res : Dict) (pre : String) : Except PyError Unit :=
  match dictGet req_res "status" with
  | .error e => .error e
  | .ok st =>
    if st = Json.str "error" then
      match dictGet req_res "message" with
      | .error e => .error e
      | .ok m =>
        match pyAddStr pre m with
        | .error e => .error e
        | .ok s => .error (.premiumizeError (Json.str s))
    else .ok ()

/-- The loop `for file_dict in req_res['content']: res.append(PremiumizeFile(file_dict))`
of `list_folder`; a content entry that is not a JSON object is modelled as a
`TypeError`. -/
def entitiesOfContent : List Json → Except PyError (List PremiumizeFile)
  | [] => .ok []
  | j :: rest =>
      match j with
      | .obj fs =>
          match entitiesOfContent rest with
          | .ok tail => .ok (PremiumizeFile.init fs :: tail)
          | .error e => .error e
      | _ => .error .typeError

/-- `Premiumize.list_folder`: list the contents of a folder.  Checks
`status != "success"` and wraps each `content` entry as a `PremiumizeFile`. -/
def Premiumize.list_folder (c : Premiumize) (id : Option Json) (resp : Dict) :
    List Request × Except PyError (List PremiumizeFile) :=
  let params : Dict := match id with | none => [] | some i => [("id", i)]
  let r := c.request "/folder/list" params resp
  ([r.1],
    match dictGet r.2 "status" with
    | .error e => .error e
    | .ok st =>
      if ¬ (st = Json.str "success") then
        match dictGet r.2 "message" with
        | .error e => .error e
        | .ok m => .error (.premiumizeError m)
      else
        match dictGet r.2 "content" with
        | .error e => .error e
        | .ok (Json.arr elems) => entitiesOfContent elems
        | .ok _ => .error .typeError)

/-- `Premiumize.create_folder`: create a folder, failing when
`not req_res["status"] == "success"`. -/
def Premiumize.create_folder (c : Premiumize) (name : Json)
    (parent_id : Option Json) (resp : Dict) : List Request × Except PyError Unit :=
  let params : Dict :=
    match parent_id with
    | none => [("name", name)]
    | some p => dictInsert [("name", name)] "parent_id" p
  let r := c.request "/folder/create" params resp
  ([r.1],
    match dictGet r.2 "status" with
    | .error e => .error e
    | .ok st =>
      if ¬ (st = Json.str "success") then
        match dictGet r.2 "message" with
        | .error e => .error e
        | .ok m =>
          match pyAddStr "Error creating folder: " m with
          | .error e => .error e
          | .ok s => .error (.premiumizeError (Json.str s))
      else .ok ())

/-- `Premiumize.delete_folder`: delete a folder, failing only when
`req_res["status"] == "error"`. -/
def Premiumize.delete_folder (c : Premiumize) (id : Json) (resp : Dict) :
    List Request × Except PyError Unit :=
  let r := c.request "/folder/delete" [("id", id)] resp
  ([r.1], checkErrorStatus r.2 "Error deleting folder: ")

/-- `Premiumize.rename_folder`: rename a folder, failing only when
`req_res["status"] == "error"`. -/
def Premiumize.rename_folder (c : Premiumize) (id : Json) (new_name : Json)
    (resp : Dict) : List Request × Except PyError Unit :=
  let r := c.request "/folder/rename" [("id", id), ("name", new_name)] resp
  ([r.1], checkErrorStatus r.2 "Error renaming folder: ")

/-- The indexed parameter name `"items[%i][id]" % index`. -/
def itemIdKey (idx : Nat) : String := "items[" ++ toString idx ++ "][id]"

/-- The indexed parameter name `"items[%i][type]" % index`. -/
def itemTypeKey (idx : Nat) : String := "items[" ++ toString idx ++ "][type]"

/-- The loop `for index, i_item in zip(range(len(item)), item)` of
`move_item`: an item whose `str(id)` equals `str(folder_id)` is skipped,
every other item adds its indexed id and type parameters. -/
def moveItemLoop (folder_id : Option Json) :
    List PremiumizeFile → Nat → Dict → Except PyError Dict
  | [], _, params => .ok params
  | it :: rest, idx, params =>
      match it.getattr "id" with
      | .error e => .error e
      | .ok iid =>
        if ¬ (iid.pyStr = pyStrOpt folder_id) then
          match it.getattr "type" with
          | .error e => .error e
          | .ok ity =>
              moveItemLoop folder_id rest (idx + 1)
                (dictInsert (dictInsert params (itemIdKey idx) iid)
                  (itemTypeKey idx) ity)
        else moveItemLoop folder_id rest (idx + 1) params

/-- `Premiumize.move_item`: move a single `PremiumizeFile` (`Sum.inl`) or a
list of them (`Sum.inr`) to `folder_id`.  Only the list branch skips
destination-equal items and short-circuits (`len(params) < 2`) without a
request; failure only when `req_res["status"] == "error"`. -/
def Premiumize.move_item (c : Premiumize)
    (item : PremiumizeFile ⊕ List PremiumizeFile) (folder_id : Option Json)
    (resp : Dict) : List Request × Except PyError Unit :=
  let params0 : Dict := match folder_id with | none => [] | some f => [("id", f)]
  match item with
  | .inr items =>
      match moveItemLoop folder_id items 0 params0 with
      | .error e => ([], .error e)
      | .ok params =>
          if params.length < 2 then ([], .ok ())
          else
            let r := c.request "/folder/paste" params resp
            ([r.1], checkErrorStatus r.2 "Error moving item: ")
  | .inl it =>
      match it.getattr "id" with
      | .error e => ([], .error e)
      | .ok iid =>
        match it.getattr "type" with
        | .error e => ([], .error e)
        | .ok ity =>
          let params :=
            dictInsert (dictInsert params0 "items[0][id]" iid) "items[0][type]" ity
          let r := c.request "/folder/paste" params resp
          ([r.1], checkErrorStatus r.2 "Error moving item: ")

/-- `Premiumize.delete_item`: delete an item using its `type` and `id`
attributes; failure only when `req_res["status"] == "error"` (the source
reuses the "Error moving item: " message text here). -/
def Premiumize.delete_item (c : Premiumize) (item : PremiumizeFile)
    (resp : Dict) : List Request × Except PyError Unit :=
  match item.getattr "type" with
  | .error e => ([], .error e)
  | .ok ty =>
    match item.getattr "id" with
    | .error e => ([], .error e)
    | .ok iid =>
      let r := c.request "/item/delete" [("type", ty), ("id", iid)] resp
      ([r.1], checkErrorStatus r.2 "Error moving item: ")

/-- The inner loop of `browse_torrent`:
`for item_name in children: res.append(PremiumizeFile(children[item_name]))`. -/
def browseChildrenLoop (children : Dict) :
    List String → Except PyError (List PremiumizeFile)
  | [] => .ok []
  | name :: rest =>
      match dictGet children name with
      | .error e => .error e
      | .ok child =>
        match child with
        | .obj fs =>
            match browseChildrenLoop children rest with
            | .error e => .error e
            | .ok tail => .ok (PremiumizeFile.init fs :: tail)
        | _ => .error .typeError

/-- The outer loop of `browse_torrent`: for each top-level `content` key,
subscript the sub-structure, subscript its `children` mapping, and collect
every child in iteration order (no recursion into children of children). -/
def browseContentLoop (content : Json) :
    List String → Except PyError (List PremiumizeFile)
  | [] => .ok []
  | key :: rest =>
      match jsonSubscript content key with
      | .error e => .error e
      | .ok sub =>
        match jsonSubscript sub "children" with
        | .error e => .error e
        | .ok children =>
          match children with
          | .obj chfs =>
              match browseChildrenLoop chfs (dictKeys chfs) with
              | .error e => .error e
              | .ok files =>
                match browseContentLoop content rest with
                | .error e => .error e
                | .ok tail => .ok (files ++ tail)
          | _ => .error .typeError

/-- `Premiumize.browse_torrent`: raises the precondition error
`"item is not a torrent"` before any request when `item.type != "torrent"`;
otherwise requests `/torrent/browse` with the item's `hash`, fails when
`status == "error"`, and flattens `content[*]['children']`. -/
def Premiumize.browse_torrent (c : Premiumize) (item : PremiumizeFile)
    (resp : Dict) : List Request × Except PyError (List PremiumizeFile) :=
  match item.getattr "type" with
  | .error e => ([], .error e)
  | .ok ty =>
    if ¬ (ty = Json.str "torrent") then
      ([], .error (.premiumizeError (Json.str "item is not a torrent")))
    else
      match item.getattr "hash" with
      | .error e => ([], .error e)
      | .ok h =>
        let r := c.request "/torrent/browse" [("hash", h)] resp
        ([r.1],
          match checkErrorStatus r.2 "Error browsing torrent: " with
          | .error e => .error e
          | .ok _ =>
            match dictGet r.2 "content" with
            | .error e => .error e
            | .ok content =>
              match content with
              | .obj fs => browseContentLoop content (dictKeys fs)
              | _ => .error .typeError)

/-- `Premiumize.start_transfer`: start a torrent transfer; failure only when
`req_res["status"] == "error"`. -/
def Premiumize.start_transfer (c : Premiumize) (source : Json)
    (folder_id : Option Json) (resp : Dict) : List Request × Except PyError Unit :=
  let params0 : Dict := [("src", source), ("type", Json.str "torrent")]
  let params :=
    match folder_id with
    | none => params0
    | some f => dictInsert params0 "folder_id" f
  let r := c.request "/transfer/create" params resp
  ([r.1], checkErrorStatus r.2 "Error starting transfer: ")

/-- `Premiumize.list_transfer`: returns `req_res['transfers']` verbatim,
with no status check at all. -/
def Premiumize.list_transfer (c : Premiumize) (resp : Dict) :
    List Request × Except PyError Json :=
  let r := c.request "/transfer/list" [] resp
  ([r.1], dictGet r.2 "transfers")

/-- `Premiumize.clear_finished_transfer`: failure only when
`req_res["status"] == "error"` (the source reuses the
"Error starting transfer: " message text here). -/
def Premiumize.clear_finished_transfer (c : Premiumize) (resp : Dict) :
    List Request × Except PyError Unit :=
  let r := c.request "/transfer/clearfinished" [] resp
  ([r.1], checkErrorStatus r.2 "Error starting transfer: ")

/-- `Premiumize.abort_transfer`: failure only when
`req_res["status"] == "error"`. -/
def Premiumize.abort_transfer (c : Premiumize) (ty : Json) (id : Json)
    (resp : Dict) : List Request × Except PyError Unit :=
  let r := c.request "/transfer/delete" [("type", ty), ("id", id)] resp
  ([r.1], checkErrorStatus r.2 "Error deleting transfer: ")

/-- Whether an `Except` computation returned normally (`true`) or raised
(`false`). -/
def exOk {α : Type} : Except PyError α → Bool
  | .ok _ => true
  | .error _ => false

/-- A parameter dict that does not touch the two credential keys. -/
def credFree (p : Dict) : Prop :=
  "customer_id" ∉ dictKeys p ∧ "pin" ∉ dictKeys p

/-- A request that conforms to the shared request contract: its URL is
`base_url + endpoint` and its query parameters are exactly the credential
pair followed by credential-free operation-specific parameters. -/
def goodReq (c : Premiumize) (endpoint : String) (r : Request) : Prop :=
  r.url = c.base_url ++ endpoint ∧ ∃ p, credFree p ∧ r.params = c.creds ++ p

/-- The JSON value of a `children` mapping whose entries are objects. -/
def childrenJson (ch : List (String × Dict)) : Json :=
  Json.obj (ch.map fun q => (q.1, Json.obj q.2))

theorem dictGet?_cons (q : String × Json) (d : Dict) (k : String) :
    dictGet? (q :: d) k = if q.1 = k then some q.2 else dictGet? d k := by
  by_cases h : q.1 = k <;> simp [dictGet?, List.find?, h]

theorem dictGet?_self_of_nodup (d : Dict) (hnd : (dictKeys d).Nodup) :
    ∀ p ∈ d, dictGet? d p.1 = some p.2 := by
  induction d with
  | nil => simp
  | cons q rest ih =>
      intro p hp
      rcases List.mem_cons.mp hp with hp | hp
      · subst hp; simp [dictGet?_cons]
      · have hk : q.1 ≠ p.1 := by
          intro h
          exact (List.nodup_cons.mp hnd).1 (h ▸ (List.mem_map.mpr ⟨p, hp, rfl⟩))
        simpa [dictGet?_cons, hk] using ih (List.nodup_cons.mp hnd).2 p hp

theorem dictInsert_eq_append (d : Dict) (k : String) (v : Json)
    (h : k ∉ dictKeys d) : dictInsert d k v = d ++ [(k, v)] := by
  induction d with
  | nil => simp [dictInsert]
  | cons q rest ih =>
      have hk : q.1 ≠ k := by
        intro he; exact h (by simp [dictKeys, he])
      simp [dictInsert, hk, ih (by simp [dictKeys] at h ⊢; exact h.2)]

theorem dictKeys_dictInsert (d : Dict) (k : String) (v : Json) :
    ∀ k' ∈ dictKeys (dictInsert d k v), k' = k ∨ k' ∈ dictKeys d := by
  induction d with
  | nil => simp [dictInsert, dictKeys]
  | cons q rest ih =>
      intro k' hk'
      by_cases h : q.1 = k
      · simp [dictInsert, h, dictKeys] at hk' ⊢
        tauto
      · simp [dictInsert, h, dictKeys] at hk' ⊢
        rcases hk' with hk' | hk'
        · tauto
        · rcases ih k' (by simpa [dictKeys] using hk') with h2 | h2
          · tauto
          · simp [dictKeys] at h2; tauto

theorem checkErrorStatus_eq_ok (resp : Dict) (pre : String) (s : Json)
    (hs : dictGet? resp "status" = some s) (hne : s ≠ Json.str "error") :
    checkErrorStatus resp pre = .ok () := by
  simp [checkErrorStatus, dictGet, hs, hne]

theorem checkErrorStatus_not_ok (resp : Dict) (pre : String)
    (hs : dictGet? resp "status" = some (Json.str "error")) :
    exOk (checkErrorStatus resp pre) = false := by
  simp only [checkErrorStatus, dictGet, hs]
  cases hm : dictGet? resp "message" with
  | none => simp [exOk]
  | some m => cases m <;> simp [exOk, pyAddStr]

theorem checkErrorStatus_ok_iff (resp : Dict) (pre : String) (s : Json)
    (hs : dictGet? resp "status" = some s) :
    exOk (checkErrorStatus resp pre) = true ↔ s ≠ Json.str "error" := by
  by_cases h : s = Json.str "error"
  · subst h
    simp [checkErrorStatus_not_ok resp pre hs]
  · simp [checkErrorStatus_eq_ok resp pre s hs h, exOk, h]

theorem list_folder_raises (c : Premiumize) (id : Option Json) (resp : Dict)
    (s : Json) (hs : dictGet? resp "status" = some s)
    (hne : s ≠ Json.str "success") :
    exOk (c.list_folder id resp).2 = false := by
  simp only [Premiumize.list_folder, Premiumize.request, dictGet, hs, hne,
    not_false_iff, if_true]
  cases hm : dictGet? resp "message" with
  | none => simp [exOk]
  | some m => simp [exOk]

theorem create_folder_raises (c : Premiumize) (name : Json)
    (pid : Option Json) (resp : Dict) (s : Json)
    (hs : dictGet? resp "status" = some s) (hne : s ≠ Json.str "success") :
    exOk (c.create_folder name pid resp).2 = false := by
  simp only [Premiumize.create_folder, Premiumize.request, dictGet, hs, hne,
    not_false_iff, if_true]
  cases hm : dictGet? resp "message" with
  | none => simp [exOk]
  | some m => cases m <;> simp [exOk, pyAddStr]

/-- Claim C1: the status-check policy is asymmetric per operation.
`list_folder` and `create_folder` raise for every response whose `status`
field is not exactly `"success"`, while `delete_folder`, `rename_folder`,
`move_item`, `delete_item`, `start_transfer`, `clear_finished_transfer` and
`abort_transfer` raise if and only if the `status` field is exactly
`"error"` (any other status, e.g. `"pending"`, returns normally for
those operations). -/
theorem claim_C1 (c : Premiumize) (resp : Dict) (s : Json)
    (idv namev nn src ttyp tid : Json) (it : PremiumizeFile) (iid ity : Json)
    (hs : dictGet? resp "status" = some s)
    (hid : it.getattr "id" = .ok iid) (hty : it.getattr "type" = .ok ity) :
    (s ≠ Json.str "success" → exOk (c.list_folder (some idv) resp).2 = false) ∧
    (s ≠ Json.str "success" → exOk (c.create_folder namev none resp).2 = false) ∧
    (exOk (c.delete_folder idv resp).2 = true ↔ s ≠ Json.str "error") ∧
    (exOk (c.rename_folder idv nn resp).2 = true ↔ s ≠ Json.str "error") ∧
    (exOk (c.move_item (Sum.inl it) (some idv) resp).2 = true ↔ s ≠ Json.str "error") ∧
    (exOk (c.delete_item it resp).2 = true ↔ s ≠ Json.str "error") ∧
    (exOk (c.start_transfer src (some idv) resp).2 = true ↔ s ≠ Json.str "error") ∧
    (exOk (c.clear_finished_transfer resp).2 = true ↔ s ≠ Json.str "error") ∧
    (exOk (c.abort_transfer ttyp tid resp).2 = true ↔ s ≠ Json.str "error") := by
  refine ⟨fun hne => list_folder_raises c (some idv) resp s hs hne,
    fun hne => create_folder_raises c namev none resp s hs hne, ?_, ?_, ?_, ?_, ?_, ?_, ?_⟩
  · exact checkErrorStatus_ok_iff resp _ s hs
  · exact checkErrorStatus_ok_iff resp _ s hs
  · have : (c.move_item (Sum.inl it) (some idv) resp).2
        = checkErrorStatus resp "Error moving item: " := by
      simp [Premiumize.move_item, hid, hty, Premiumize.request]
    rw [this]
    exact checkErrorStatus_ok_iff resp _ s hs
  · have : (c.delete_item it resp).2
        = checkErrorStatus resp "Error moving item: " := by
      simp [Premiumize.delete_item, hid, hty, Premiumize.request]
    rw [this]
    exact checkErrorStatus_ok_iff resp _ s hs
  · exact checkErrorStatus_ok_iff resp _ s hs
  · exact checkErrorStatus_ok_iff resp _ s hs
  · exact checkErrorStatus_ok_iff resp _ s hs

theorem claim_C1_witness :
    dictGet? [("status", Json.str "pending")] "status" = some (Json.str "pending") ∧
    PremiumizeFile.getattr ⟨[("id", Json.str "1"), ("type", Json.str "file")]⟩ "id"
      = .ok (Json.str "1") ∧
    PremiumizeFile.getattr ⟨[("id", Json.str "1"), ("type", Json.str "file")]⟩ "type"
      = .ok (Json.str "file") ∧
    ((Json.str "pending" ≠ Json.str "success" →
      exOk ((Premiumize.mk "u" "p" "b").list_folder (some (Json.str "7"))
        [("status", Json.str "pending")]).2 = false) ∧
     (Json.str "pending" ≠ Json.str "success" →
      exOk ((Premiumize.mk "u" "p" "b").create_folder (Json.str "n") none
        [("status", Json.str "pending")]).2 = false) ∧
     (exOk ((Premiumize.mk "u" "p" "b").delete_folder (Json.str "7")
        [("status", Json.str "pending")]).2 = true ↔ Json.str "pending" ≠ Json.str "error") ∧
     (exOk ((Premiumize.mk "u" "p" "b").rename_folder (Json.str "7") (Json.str "n2")
        [("status", Json.str "pending")]).2 = true ↔ Json.str "pending" ≠ Json.str "error") ∧
     (exOk ((Premiumize.mk "u" "p" "b").move_item
        (Sum.inl ⟨[("id", Json.str "1"), ("type", Json.str "file")]⟩) (some (Json.str "7"))
        [("status", Json.str "pending")]).2 = true ↔ Json.str "pending" ≠ Json.str "error") ∧
     (exOk ((Premiumize.mk "u" "p" "b").delete_item
        ⟨[("id", Json.str "1"), ("type", Json.str "file")]⟩
        [("status", Json.str "pending")]).2 = true ↔ Json.str "pending" ≠ Json.str "error") ∧
     (exOk ((Premiumize.mk "u" "p" "b").start_transfer (Json.str "magnet:x") (some (Json.str "7"))
        [("status", Json.str "pending")]).2 = true ↔ Json.str "pending" ≠ Json.str "error") ∧
     (exOk ((Premiumize.mk "u" "p" "b").clear_finished_transfer
        [("status", Json.str "pending")]).2 = true ↔ Json.str "pending" ≠ Json.str "error") ∧
     (exOk ((Premiumize.mk "u" "p" "b").abort_transfer (Json.str "torrent") (Json.str "9")
        [("status", Json.str "pending")]).2 = true ↔ Json.str "pending" ≠ Json.str "error")) :=
  ⟨by decide, by decide, by decide,
    claim_C1 (Premiumize.mk "u" "p" "b") [("status", Json.str "pending")]
      (Json.str "pending") (Json.str "7") (Json.str "n") (Json.str "n2")
      (Json.str "magnet:x") (Json.str "torrent") (Json.str "9")
      ⟨[("id", Json.str "1"), ("type", Json.str "file")]⟩
      (Json.str "1") (Json.str "file") (by decide) (by decide) (by decide)⟩

/-- Claim C2 counterexample: `move_item` called with a single (non-list)
item whose `id` string-equals the destination folder id does NOT skip the
item: it emits the item parameters and issues the HTTP request. -/
theorem claim_C2_counterexample :
    (Premiumize.move_item (Premiumize.mk "u" "p" "b")
        (Sum.inl ⟨[("id", Json.str "5"), ("type", Json.str "file")]⟩)
        (some (Json.str "5")) [("status", Json.str "success")]).1
      = [Request.mk "b/folder/paste"
          [("customer_id", Json.str "u"), ("pin", Json.str "p"),
           ("id", Json.str "5"), ("items[0][id]", Json.str "5"),
           ("items[0][type]", Json.str "file")]] := by decide

/-- Claim C2 (amended): for every call of `move_item` with a one-element
LIST whose item's `id` string-equals the destination folder id, the item is
skipped, no HTTP request is issued, and the operation returns without
error; a bare (non-list) item is never skipped. -/
theorem claim_C2 (c : Premiumize) (it : PremiumizeFile) (d iid : Json)
    (resp : Dict) (hid : it.getattr "id" = .ok iid)
    (heq : iid.pyStr = d.pyStr) :
    c.move_item (Sum.inr [it]) (some d) resp = ([], .ok ()) := by
  simp [Premiumize.move_item, moveItemLoop, hid, pyStrOpt, heq]

theorem claim_C2_witness :
    PremiumizeFile.getattr ⟨[("id", Json.str "5"), ("type", Json.str "file")]⟩ "id"
      = .ok (Json.str "5") ∧
    Json.pyStr (Json.str "5") = Json.pyStr (Json.str "5") ∧
    Premiumize.move_item (Premiumize.mk "u" "p" "b")
        (Sum.inr [⟨[("id", Json.str "5"), ("type", Json.str "file")]⟩])
        (some (Json.str "5")) [("status", Json.str "success")] = ([], .ok ()) :=
  ⟨by decide, rfl,
    claim_C2 (Premiumize.mk "u" "p" "b")
      ⟨[("id", Json.str "5"), ("type", Json.str "file")]⟩
      (Json.str "5") (Json.str "5") [("status", Json.str "success")]
      (by decide) rfl⟩

/-- Claim C6: for every entity whose `type` attribute is not exactly
`"torrent"`, `browse_torrent` raises the precondition error
`"item is not a torrent"` before issuing any HTTP request (the request
trace is empty). -/
theorem claim_C6 (c : Premiumize) (item : PremiumizeFile) (ty : Json)
    (resp : Dict) (hty : item.getattr "type" = .ok ty)
    (hne : ty ≠ Json.str "torrent") :
    c.browse_torrent item resp
      = ([], .error (.premiumizeError (Json.str "item is not a torrent"))) := by
  simp [Premiumize.browse_torrent, hty, hne]

theorem claim_C6_witness :
    PremiumizeFile.getattr ⟨[("id", Json.str "1"), ("type", Json.str "file")]⟩ "type"
      = .ok (Json.str "file") ∧
    Json.str "file" ≠ Json.str "torrent" ∧
    Premiumize.browse_torrent (Premiumize.mk "u" "p" "b")
        ⟨[("id", Json.str "1"), ("type", Json.str "file")]⟩
        [("status", Json.str "success")]
      = ([], .error (.premiumizeError (Json.str "item is not a torrent"))) :=
  ⟨by decide, by decide,
    claim_C6 (Premiumize.mk "u" "p" "b")
      ⟨[("id", Json.str "1"), ("type", Json.str "file")]⟩ (Json.str "file")
      [("status", Json.str "success")] (by decide) (by decide)⟩

/-- Claim C8: for every transfer-list response holding a `transfers` field,
`list_transfer` returns that field's value unchanged and performs no status
check: the theorem assumes nothing about the `status` field (it may be
`"error"`, anything else, or absent) and the call never raises. -/
theorem claim_C8 (c : Premiumize) (resp : Dict) (tv : Json)
    (ht : dictGet? resp "transfers" = some tv) :
    c.list_transfer resp
      = ([Request.mk (c.base_url ++ "/transfer/list") c.creds], .ok tv) := by
  simp [Premiumize.list_transfer, Premiumize.request, dictGet, ht,
    buildRequestParams]

theorem claim_C8_witness :
    dictGet? [("status", Json.str "error"), ("transfers", Json.arr [Json.obj [("id", Json.num 7)]])]
        "transfers" = some (Json.arr [Json.obj [("id", Json.num 7)]]) ∧
    Premiumize.list_transfer (Premiumize.mk "u" "p" "b")
        [("status", Json.str "error"), ("transfers", Json.arr [Json.obj [("id", Json.num 7)]])]
      = ([Request.mk ("b" ++ "/transfer/list") (Premiumize.creds (Premiumize.mk "u" "p" "b"))],
         .ok (Json.arr [Json.obj [("id", Json.num 7)]])) :=
  ⟨by decide,
    claim_C8 (Premiumize.mk "u" "p" "b")
      [("status", Json.str "error"), ("transfers", Json.arr [Json.obj [("id", Json.num 7)]])]
      (Json.arr [Json.obj [("id", Json.num 7)]]) (by decide)⟩

theorem foldl_dictInsert_eq_append (fs : Dict) : ∀ d : Dict,
    (dictKeys fs).Nodup → (∀ k ∈ dictKeys fs, k ∉ dictKeys d) →
    fs.foldl (fun acc p => dictInsert acc p.1 p.2) d = d ++ fs := by
  induction fs with
  | nil => intro d _ _; simp
  | cons q rest ih =>
      intro d hnd hdis
      obtain ⟨k, v⟩ := q
      simp only [List.foldl_cons]
      rw [dictInsert_eq_append d k v (hdis k (by simp [dictKeys]))]
      rw [ih (d ++ [(k, v)])
        (by simpa [dictKeys] using (List.nodup_cons.mp (by simpa [dictKeys] using hnd)).2)
        ?_]
      · simp
      · intro k' hk'
        have hne : k' ≠ k := by
          intro he
          exact (List.nodup_cons.mp (by simpa [dictKeys] using hnd)).1
            (he ▸ hk')
        have hnotd : k' ∉ dictKeys d := hdis k' (by simp [dictKeys] at hk' ⊢; tauto)
        simp [dictKeys] at hnotd ⊢
        tauto

theorem PremiumizeFile_init_eq (fs : Dict) (h : (dictKeys fs).Nodup) :
    PremiumizeFile.init fs = ⟨fs⟩ := by
  unfold PremiumizeFile.init
  rw [foldl_dictInsert_eq_append fs [] h (by simp [dictKeys])]
  simp

theorem entitiesOfContent_map (objs : List Dict)
    (h : ∀ fs ∈ objs, (dictKeys fs).Nodup) :
    entitiesOfContent (objs.map Json.obj) = .ok (objs.map fun fs => ⟨fs⟩) := by
  induction objs with
  | nil => simp [entitiesOfContent]
  | cons fs rest ih =>
      simp only [List.map_cons, entitiesOfContent]
      rw [ih (fun g hg => h g (by simp [hg]))]
      simp [PremiumizeFile_init_eq fs (h fs (by simp))]

/-- Claim C3: for every folder-list response with status `"success"` whose
`content` is a list of N objects with duplicate-free keys, `list_folder`
returns exactly N entities, in the same order, the k-th entity's attribute
dict being exactly the k-th content object (no added, removed, renamed or
defaulted fields); an empty content list yields the empty sequence. -/
theorem claim_C3 (c : Premiumize) (id : Option Json) (resp : Dict)
    (objs : List Dict)
    (hs : dictGet? resp "status" = some (Json.str "success"))
    (hc : dictGet? resp "content" = some (Json.arr (objs.map Json.obj)))
    (hnd : ∀ fs ∈ objs, (dictKeys fs).Nodup) :
    (c.list_folder id resp).2 = .ok (objs.map fun fs => PremiumizeFile.mk fs) := by
  simp [Premiumize.list_folder, Premiumize.request, dictGet, hs, hc,
    entitiesOfContent_map objs hnd]

theorem claim_C3_witness :
    dictGet? [("status", Json.str "success"),
        ("content", Json.arr [Json.obj [("id", Json.str "a"), ("name", Json.str "x")],
                              Json.obj [("id", Json.str "c")]])] "status"
      = some (Json.str "success") ∧
    dictGet? [("status", Json.str "success"),
        ("content", Json.arr [Json.obj [("id", Json.str "a"), ("name", Json.str "x")],
                              Json.obj [("id", Json.str "c")]])] "content"
      = some (Json.arr ([[("id", Json.str "a"), ("name", Json.str "x")],
                         [("id", Json.str "c")]].map Json.obj)) ∧
    ((Premiumize.mk "u" "p" "b").list_folder none
        [("status", Json.str "success"),
         ("content", Json.arr [Json.obj [("id", Json.str "a"), ("name", Json.str "x")],
                               Json.obj [("id", Json.str "c")]])]).2
      = .ok ([[("id", Json.str "a"), ("name", Json.str "x")],
              [("id", Json.str "c")]].map fun fs => PremiumizeFile.mk fs) :=
  ⟨by decide, by decide,
    claim_C3 (Premiumize.mk "u" "p" "b") none
      [("status", Json.str "success"),
       ("content", Json.arr [Json.obj [("id", Json.str "a"), ("name", Json.str "x")],
                             Json.obj [("id", Json.str "c")]])]
      [[("id", Json.str "a"), ("name", Json.str "x")], [("id", Json.str "c")]]
      (by decide) (by decide)
      (by simp [List.mem_cons]; exact ⟨by decide, by decide⟩)⟩

/-- Claim C7 counterexample: a failing response with no `message` field does
NOT produce an API error with an empty message: `list_folder` instead fails
with `KeyError("message")` while looking the message up. -/
theorem claim_C7_counterexample :
    ((Premiumize.mk "u" "p" "b").list_folder none [("status", Json.str "error")]).2
        = .error (.keyError "message") ∧
    ((Premiumize.mk "u" "p" "b").list_folder none [("status", Json.str "error")]).2
        ≠ .error (.premiumizeError (Json.str "")) := by decide

/-- Claim C7 (amended): for every failing response that has a `message`
field, the raised API error carries the server-supplied message
(`list_folder` verbatim, `create_folder` prefixed with
`"Error creating folder: "`); when the response has no `message` field, the
operation does not raise an API error with an empty message but fails with
`KeyError("message")`. -/
theorem claim_C7 (c : Premiumize) (oid : Option Json) (namev : Json)
    (resp : Dict) (s : Json) (hs : dictGet? resp "status" = some s)
    (hne : s ≠ Json.str "success") :
    ((∀ m, dictGet? resp "message" = some m →
        (c.list_folder oid resp).2 = .error (.premiumizeError m)) ∧
     (dictGet? resp "message" = none →
        (c.list_folder oid resp).2 = .error (.keyError "message"))) ∧
    ((∀ ms, dictGet? resp "message" = some (Json.str ms) →
        (c.create_folder namev none resp).2
          = .error (.premiumizeError
              (Json.str ("Error creating folder: " ++ ms)))) ∧
     (dictGet? resp "message" = none →
        (c.create_folder namev none resp).2 = .error (.keyError "message"))) := by
  refine ⟨⟨?_, ?_⟩, ?_, ?_⟩
  · intro m hm
    simp [Premiumize.list_folder, Premiumize.request, dictGet, hs, hne, hm]
  · intro hm
    simp [Premiumize.list_folder, Premiumize.request, dictGet, hs, hne, hm]
  · intro ms hm
    simp [Premiumize.create_folder, Premiumize.request, dictGet, hs, hne, hm,
      pyAddStr]
  · intro hm
    simp [Premiumize.create_folder, Premiumize.request, dictGet, hs, hne, hm]

theorem claim_C7_witness :
    dictGet? [("status", Json.str "pending"), ("message", Json.str "oops")] "status"
      = some (Json.str "pending") ∧
    Json.str "pending" ≠ Json.str "success" ∧
    ((∀ m, dictGet? [("status", Json.str "pending"), ("message", Json.str "oops")]
          "message" = some m →
        ((Premiumize.mk "u" "p" "b").list_folder none
          [("status", Json.str "pending"), ("message", Json.str "oops")]).2
          = .error (.premiumizeError m)) ∧
     (dictGet? [("status", Json.str "pending"), ("message", Json.str "oops")]
          "message" = none →
        ((Premiumize.mk "u" "p" "b").list_folder none
          [("status", Json.str "pending"), ("message", Json.str "oops")]).2
          = .error (.keyError "message"))) ∧
    ((∀ ms, dictGet? [("status", Json.str "pending"), ("message", Json.str "oops")]
          "message" = some (Json.str ms) →
        ((Premiumize.mk "u" "p" "b").create_folder (Json.str "n") none
          [("status", Json.str "pending"), ("message", Json.str "oops")]).2
          = .error (.premiumizeError
              (Json.str ("Error creating folder: " ++ ms)))) ∧
     (dictGet? [("status", Json.str "pending"), ("message", Json.str "oops")]
          "message" = none →
        ((Premiumize.mk "u" "p" "b").create_folder (Json.str "n") none
          [("status", Json.str "pending"), ("message", Json.str "oops")]).2
          = .error (.keyError "message"))) :=
  ⟨by decide, by decide,
    claim_C7 (Premiumize.mk "u" "p" "b") none (Json.str "n")
      [("status", Json.str "pending"), ("message", Json.str "oops")]
      (Json.str "pending") (by decide) (by decide)⟩

theorem moveItemLoop_all_skipped (d : Option Json) :
    ∀ (items : List PremiumizeFile) (idx : Nat) (params : Dict),
      (∀ it ∈ items, ∃ iid, it.getattr "id" = .ok iid ∧ iid.pyStr = pyStrOpt d) →
      moveItemLoop d items idx params = .ok params := by
  intro items
  induction items with
  | nil => intro idx params _; simp [moveItemLoop]
  | cons it rest ih =>
      intro idx params h
      obtain ⟨iid, hid, heq⟩ := h it (by simp)
      simp only [moveItemLoop, hid, heq, not_true_eq_false, if_false]
      exact ih (idx + 1) params (fun x hx => h x (by simp [hx]))

/-- Claim C4: for a `move_item` call with a list of two items neither of
which string-equals the destination id, the parameters sent beyond the
credentials are exactly `id` (the destination, placed first by the source),
`items[0][id]`, `items[0][type]`, `items[1][id]`, `items[1][type]`; and
when every item of a list string-equals the destination id, no item
parameter remains, no request is issued, and the call returns without
error. -/
theorem claim_C4 (c : Premiumize) (a b : PremiumizeFile)
    (d aid aty bid bty : Json) (resp : Dict) (items : List PremiumizeFile)
    (hid_a : a.getattr "id" = .ok aid) (hty_a : a.getattr "type" = .ok aty)
    (hid_b : b.getattr "id" = .ok bid) (hty_b : b.getattr "type" = .ok bty)
    (hna : ¬ aid.pyStr = d.pyStr) (hnb : ¬ bid.pyStr = d.pyStr)
    (hall : ∀ it ∈ items, ∃ iid, it.getattr "id" = .ok iid ∧ iid.pyStr = d.pyStr) :
    (c.move_item (Sum.inr [a, b]) (some d) resp).1
      = [Request.mk (c.base_url ++ "/folder/paste")
          (c.creds ++ [("id", d), ("items[0][id]", aid), ("items[0][type]", aty),
            ("items[1][id]", bid), ("items[1][type]", bty)])] ∧
    c.move_item (Sum.inr items) (some d) resp = ([], .ok ()) := by
  constructor
  · have hloop : moveItemLoop (some d) [a, b] 0 [("id", d)]
        = .ok [("id", d), ("items[0][id]", aid), ("items[0][type]", aty),
               ("items[1][id]", bid), ("items[1][type]", bty)] := by
      have e0 : itemIdKey 0 = "items[0][id]" := rfl
      have e1 : itemTypeKey 0 = "items[0][type]" := rfl
      have e2 : itemIdKey 1 = "items[1][id]" := rfl
      have e3 : itemTypeKey 1 = "items[1][type]" := rfl
      simp [moveItemLoop, hid_a, hty_a, hid_b, hty_b, pyStrOpt, hna, hnb,
        e0, e1, e2, e3, dictInsert]
    simp [Premiumize.move_item, hloop, Premiumize.request, buildRequestParams,
      Premiumize.creds, dictInsert]
  · have hloop := moveItemLoop_all_skipped (some d) items 0 [("id", d)]
      (by intro it hit
          obtain ⟨iid, h1, h2⟩ := hall it hit
          exact ⟨iid, h1, by simpa [pyStrOpt] using h2⟩)
    simp [Premiumize.move_item, hloop]

theorem claim_C4_witness :
    PremiumizeFile.getattr ⟨[("id", Json.str "1"), ("type", Json.str "file")]⟩ "id"
      = .ok (Json.str "1") ∧
    PremiumizeFile.getattr ⟨[("id", Json.str "2"), ("type", Json.str "folder")]⟩ "id"
      = .ok (Json.str "2") ∧
    ¬ Json.pyStr (Json.str "1") = Json.pyStr (Json.str "9") ∧
    ¬ Json.pyStr (Json.str "2") = Json.pyStr (Json.str "9") ∧
    ((Premiumize.mk "u" "p" "b").move_item
        (Sum.inr [⟨[("id", Json.str "1"), ("type", Json.str "file")]⟩,
                  ⟨[("id", Json.str "2"), ("type", Json.str "folder")]⟩])
        (some (Json.str "9")) [("status", Json.str "ok")]).1
      = [Request.mk ("b" ++ "/folder/paste")
          ((Premiumize.mk "u" "p" "b").creds
            ++ [("id", Json.str "9"), ("items[0][id]", Json.str "1"),
                ("items[0][type]", Json.str "file"),
                ("items[1][id]", Json.str "2"),
                ("items[1][type]", Json.str "folder")])] ∧
    (Premiumize.mk "u" "p" "b").move_item
        (Sum.inr [⟨[("id", Json.str "9"), ("type", Json.str "file")]⟩])
        (some (Json.str "9")) [("status", Json.str "ok")] = ([], .ok ()) :=
  ⟨by decide, by decide, by decide, by decide,
    claim_C4 (Premiumize.mk "u" "p" "b")
      ⟨[("id", Json.str "1"), ("type", Json.str "file")]⟩
      ⟨[("id", Json.str "2"), ("type", Json.str "folder")]⟩
      (Json.str "9") (Json.str "1") (Json.str "file") (Json.str "2")
      (Json.str "folder") [("status", Json.str "ok")]
      [⟨[("id", Json.str "9"), ("type", Json.str "file")]⟩]
      (by decide) (by decide) (by decide) (by decide) (by decide) (by decide)
      (by intro it hit
          simp [List.mem_singleton] at hit
          subst hit
          exact ⟨Json.str "9", by decide, rfl⟩)⟩

/-- Claim C10: when a non-final item of a `move_item` list is skipped for
string-equalling the destination id, the emitted `items[<index>][id]` /
`items[<index>][type]` parameters keep the items' original positions: a
three-item list whose middle item is skipped sends indices 0 and 2 with no
`items[1]` parameters and no reindexing. -/
theorem claim_C10 (c : Premiumize) (a mid_it b : PremiumizeFile)
    (d aid aty midv bid bty : Json) (resp : Dict)
    (hid_a : a.getattr "id" = .ok aid) (hty_a : a.getattr "type" = .ok aty)
    (hid_m : mid_it.getattr "id" = .ok midv) (hskip : midv.pyStr = d.pyStr)
    (hid_b : b.getattr "id" = .ok bid) (hty_b : b.getattr "type" = .ok bty)
    (hna : ¬ aid.pyStr = d.pyStr) (hnb : ¬ bid.pyStr = d.pyStr) :
    (c.move_item (Sum.inr [a, mid_it, b]) (some d) resp).1
      = [Request.mk (c.base_url ++ "/folder/paste")
          (c.creds ++ [("id", d), ("items[0][id]", aid), ("items[0][type]", aty),
            ("items[2][id]", bid), ("items[2][type]", bty)])] := by
  have hloop : moveItemLoop (some d) [a, mid_it, b] 0 [("id", d)]
      = .ok [("id", d), ("items[0][id]", aid), ("items[0][type]", aty),
             ("items[2][id]", bid), ("items[2][type]", bty)] := by
    have e0 : itemIdKey 0 = "items[0][id]" := rfl
    have e1 : itemTypeKey 0 = "items[0][type]" := rfl
    have e2 : itemIdKey 2 = "items[2][id]" := rfl
    have e3 : itemTypeKey 2 = "items[2][type]" := rfl
    simp [moveItemLoop, hid_a, hty_a, hid_m, hskip, hid_b, hty_b, pyStrOpt,
      hna, hnb, e0, e1, e2, e3, dictInsert]
  simp [Premiumize.move_item, hloop, Premiumize.request, buildRequestParams,
    Premiumize.creds, dictInsert]

theorem claim_C10_witness :
    PremiumizeFile.getattr ⟨[("id", Json.str "9"), ("type", Json.str "file")]⟩ "id"
      = .ok (Json.str "9") ∧
    Json.pyStr (Json.str "9") = Json.pyStr (Json.str "9") ∧
    ((Premiumize.mk "u" "p" "b").move_item
        (Sum.inr [⟨[("id", Json.str "1"), ("type", Json.str "file")]⟩,
                  ⟨[("id", Json.str "9"), ("type", Json.str "file")]⟩,
                  ⟨[("id", Json.str "2"), ("type", Json.str "folder")]⟩])
        (some (Json.str "9")) [("status", Json.str "ok")]).1
      = [Request.mk ("b" ++ "/folder/paste")
          ((Premiumize.mk "u" "p" "b").creds
            ++ [("id", Json.str "9"), ("items[0][id]", Json.str "1"),
                ("items[0][type]", Json.str "file"),
                ("items[2][id]", Json.str "2"),
                ("items[2][type]", Json.str "folder")])] :=
  ⟨by decide, rfl,
    claim_C10 (Premiumize.mk "u" "p" "b")
      ⟨[("id", Json.str "1"), ("type", Json.str "file")]⟩
      ⟨[("id", Json.str "9"), ("type", Json.str "file")]⟩
      ⟨[("id", Json.str "2"), ("type", Json.str "folder")]⟩
      (Json.str "9") (Json.str "1") (Json.str "file") (Json.str "9")
      (Json.str "2") (Json.str "folder") [("status", Json.str "ok")]
      (by decide) (by decide) (by decide) rfl (by decide) (by decide)
      (by decide) (by decide)⟩

theorem browseChildrenLoop_go (children : Dict) :
    ∀ ch : List (String × Dict),
      (∀ q ∈ ch, dictGet? children q.1 = some (Json.obj q.2)) →
      browseChildrenLoop children (ch.map Prod.fst)
        = .ok (ch.map fun q => PremiumizeFile.init q.2) := by
  intro ch
  induction ch with
  | nil => intro _; simp [browseChildrenLoop]
  | cons q rest ih =>
      intro h
      have hq := h q (by simp)
      simp only [List.map_cons, browseChildrenLoop, dictGet, hq]
      rw [ih (fun x hx => h x (by simp [hx]))]

theorem browseContentLoop_go (content : Json) :
    ∀ (ctop : List (String × Json)) (chs : List (List (String × Dict))),
      List.Forall₂ (fun p ch =>
        jsonSubscript p.2 "children" = .ok (childrenJson ch)
          ∧ (ch.map Prod.fst).Nodup) ctop chs →
      (∀ p ∈ ctop, jsonSubscript content p.1 = .ok p.2) →
      browseContentLoop content (ctop.map Prod.fst)
        = .ok ((chs.map fun ch => ch.map fun q => PremiumizeFile.init q.2).flatten) := by
  intro ctop chs hf
  induction hf with
  | nil => intro _; simp [browseContentLoop]
  | @cons p ch ctop' chs' hpc hrest ih =>
      intro hget
      have hp := hget p (by simp)
      have hkeys : dictKeys (ch.map fun q => (q.1, Json.obj q.2))
          = ch.map Prod.fst := by
        simp [dictKeys, List.map_map]
      have hin : browseChildrenLoop (ch.map fun q => (q.1, Json.obj q.2))
          (dictKeys (ch.map fun q => (q.1, Json.obj q.2)))
          = .ok (ch.map fun q => PremiumizeFile.init q.2) := by
        rw [hkeys]
        apply browseChildrenLoop_go
        intro q hq
        have hm : ((q.1, Json.obj q.2) : String × Json)
            ∈ ch.map fun q => (q.1, Json.obj q.2) :=
          List.mem_map.mpr ⟨q, hq, rfl⟩
        have hnd2 : (dictKeys (ch.map fun q => (q.1, Json.obj q.2))).Nodup := by
          rw [hkeys]; exact hpc.2
        exact dictGet?_self_of_nodup _ hnd2 _ hm
      simp only [List.map_cons, browseContentLoop, hp, hpc.1, childrenJson,
        hin, ih (fun x hx => hget x (by simp [hx])), List.map_cons, List.flatten_cons]

/-- Claim C5: for every `browse_torrent` response whose `content` maps
top-level keys (duplicate-free) to sub-structures each holding a `children`
mapping of child objects, the result is the concatenation, in iteration
order of the top-level keys and then of each `children` mapping, of every
child wrapped as an entity, with no recursion into children of children. -/
theorem claim_C5 (c : Premiumize) (item : PremiumizeFile) (hsh s : Json)
    (resp : Dict) (ctop : List (String × Json))
    (chs : List (List (String × Dict)))
    (hty : item.getattr "type" = .ok (Json.str "torrent"))
    (hhash : item.getattr "hash" = .ok hsh)
    (hs : dictGet? resp "status" = some s) (hne : s ≠ Json.str "error")
    (hc : dictGet? resp "content" = some (Json.obj ctop))
    (hnd : (dictKeys ctop).Nodup)
    (hf : List.Forall₂ (fun p ch =>
        jsonSubscript p.2 "children" = .ok (childrenJson ch)
          ∧ (ch.map Prod.fst).Nodup) ctop chs) :
    (c.browse_torrent item resp).2
      = .ok ((chs.map fun ch => ch.map fun q => PremiumizeFile.init q.2).flatten) := by
  have hck := checkErrorStatus_eq_ok resp "Error browsing torrent: " s hs hne
  have hget : ∀ p ∈ ctop, jsonSubscript (Json.obj ctop) p.1 = .ok p.2 := by
    intro p hp
    simp [jsonSubscript, dictGet, dictGet?_self_of_nodup ctop hnd p hp]
  have hloop := browseContentLoop_go (Json.obj ctop) ctop chs hf hget
  simp [Premiumize.browse_torrent, hty, hhash, Premiumize.request, hck,
    dictGet, hc, dictKeys, hloop]

theorem claim_C5_witness :
    PremiumizeFile.getattr ⟨[("type", Json.str "torrent"), ("hash", Json.str "h")]⟩ "type"
      = .ok (Json.str "torrent") ∧
    PremiumizeFile.getattr ⟨[("type", Json.str "torrent"), ("hash", Json.str "h")]⟩ "hash"
      = .ok (Json.str "h") ∧
    dictGet? [("status", Json.str "success"),
        ("content", Json.obj
          [("a", Json.obj [("children",
              childrenJson [("f1", [("n", Json.num 1)]), ("f2", [("n", Json.num 2)])])]),
           ("b", Json.obj [("children",
              childrenJson [("f3", [("n", Json.num 3)])])])])] "status"
      = some (Json.str "success") ∧
    Json.str "success" ≠ Json.str "error" ∧
    (dictKeys [("a", Json.obj [("children",
        childrenJson [("f1", [("n", Json.num 1)]), ("f2", [("n", Json.num 2)])])]),
      ("b", Json.obj [("children",
        childrenJson [("f3", [("n", Json.num 3)])])])]).Nodup ∧
    List.Forall₂ (fun (p : String × Json) (ch : List (String × Dict)) =>
        jsonSubscript p.2 "children" = .ok (childrenJson ch)
          ∧ (ch.map Prod.fst).Nodup)
      [("a", Json.obj [("children",
          childrenJson [("f1", [("n", Json.num 1)]), ("f2", [("n", Json.num 2)])])]),
       ("b", Json.obj [("children",
          childrenJson [("f3", [("n", Json.num 3)])])])]
      [[("f1", [("n", Json.num 1)]), ("f2", [("n", Json.num 2)])],
       [("f3", [("n", Json.num 3)])]] ∧
    ((Premiumize.mk "u" "p" "b").browse_torrent
        ⟨[("type", Json.str "torrent"), ("hash", Json.str "h")]⟩
        [("status", Json.str "success"),
         ("content", Json.obj
           [("a", Json.obj [("children",
               childrenJson [("f1", [("n", Json.num 1)]), ("f2", [("n", Json.num 2)])])]),
            ("b", Json.obj [("children",
               childrenJson [("f3", [("n", Json.num 3)])])])])]).2
      = .ok (([[("f1", [("n", Json.num 1)]), ("f2", [("n", Json.num 2)])],
               [("f3", [("n", Json.num 3)])]].map
                fun ch => ch.map fun q => PremiumizeFile.init q.2).flatten) :=
  ⟨by decide, by decide, by decide, by decide, by decide,
    by refine List.Forall₂.cons ⟨?_, ?_⟩ (List.Forall₂.cons ⟨?_, ?_⟩ List.Forall₂.nil)
         <;> decide,
    claim_C5 (Premiumize.mk "u" "p" "b")
      ⟨[("type", Json.str "torrent"), ("hash", Json.str "h")]⟩
      (Json.str "h") (Json.str "success")
      [("status", Json.str "success"),
       ("content", Json.obj
         [("a", Json.obj [("children",
             childrenJson [("f1", [("n", Json.num 1)]), ("f2", [("n", Json.num 2)])])]),
          ("b", Json.obj [("children",
             childrenJson [("f3", [("n", Json.num 3)])])])])]
      [("a", Json.obj [("children",
          childrenJson [("f1", [("n", Json.num 1)]), ("f2", [("n", Json.num 2)])])]),
       ("b", Json.obj [("children",
          childrenJson [("f3", [("n", Json.num 3)])])])]
      [[("f1", [("n", Json.num 1)]), ("f2", [("n", Json.num 2)])],
       [("f3", [("n", Json.num 3)])]]
      (by decide) (by decide) (by decide) (by decide) (by decide) (by decide)
      (by refine List.Forall₂.cons ⟨?_, ?_⟩ (List.Forall₂.cons ⟨?_, ?_⟩ List.Forall₂.nil)
            <;> decide)⟩

theorem dictInsert_append_left (d₁ d₂ : Dict) (k : String) (v : Json)
    (h : k ∉ dictKeys d₁) :
    dictInsert (d₁ ++ d₂) k v = d₁ ++ dictInsert d₂ k v := by
  induction d₁ with
  | nil => simp
  | cons q rest ih =>
      have hne : q.1 ≠ k := by intro he; exact h (by simp [dictKeys, he])
      simp [dictInsert, hne, ih (by simp [dictKeys] at h ⊢; tauto)]

theorem buildRequestParams_split (c : Premiumize) (ps : Dict)
    (h : ∀ k ∈ dictKeys ps, k ≠ "customer_id" ∧ k ≠ "pin") :
    buildRequestParams c ps
      = c.creds ++ ps.foldl (fun acc p => dictInsert acc p.1 p.2) [] := by
  have main : ∀ (qs : Dict),
      (∀ k ∈ dictKeys qs, k ≠ "customer_id" ∧ k ≠ "pin") →
      ∀ (acc : Dict),
      qs.foldl (fun a p => dictInsert a p.1 p.2) (c.creds ++ acc)
        = c.creds ++ qs.foldl (fun a p => dictInsert a p.1 p.2) acc := by
    intro qs
    induction qs with
    | nil => intro _ acc; simp
    | cons q rest ih =>
        intro hq acc
        have hqk := hq q.1 (by simp [dictKeys])
        have hnotc : q.1 ∉ dictKeys c.creds := by
          simp [Premiumize.creds, dictKeys]
          exact hqk
        simp only [List.foldl_cons]
        rw [dictInsert_append_left c.creds acc q.1 q.2 hnotc,
          ih (fun k hk => hq k (by simp [dictKeys] at hk ⊢; tauto))
            (dictInsert acc q.1 q.2)]
  have h0 := main ps h []
  unfold buildRequestParams
  simpa using h0

theorem dictKeys_foldl_insert (ps : Dict) :
    ∀ acc : Dict, ∀ k ∈ dictKeys (ps.foldl (fun a p => dictInsert a p.1 p.2) acc),
      k ∈ dictKeys acc ∨ k ∈ dictKeys ps := by
  induction ps with
  | nil => intro acc k hk; exact .inl hk
  | cons q rest ih =>
      intro acc k hk
      rcases ih (dictInsert acc q.1 q.2) k hk with h | h
      · rcases dictKeys_dictInsert acc q.1 q.2 k h with h2 | h2
        · right; simp [dictKeys, h2]
        · left; exact h2
      · right; simp [dictKeys] at h ⊢; tauto

theorem goodReq_request (c : Premiumize) (ep : String) (ps : Dict) (resp : Dict)
    (h : ∀ k ∈ dictKeys ps, k ≠ "customer_id" ∧ k ≠ "pin") :
    goodReq c ep (c.request ep ps resp).1 := by
  refine ⟨rfl, ps.foldl (fun acc p => dictInsert acc p.1 p.2) [], ⟨?_, ?_⟩, ?_⟩
  · intro hk
    rcases dictKeys_foldl_insert ps [] _ hk with h0 | h0
    · simp [dictKeys] at h0
    · exact (h _ h0).1 rfl
  · intro hk
    rcases dictKeys_foldl_insert ps [] _ hk with h0 | h0
    · simp [dictKeys] at h0
    · exact (h _ h0).2 rfl
  · exact buildRequestParams_split c ps h

theorem items_key_ne_creds (x y : String) :
    ("items[" ++ x ++ y) ≠ "customer_id" ∧ ("items[" ++ x ++ y) ≠ "pin" := by
  constructor <;> intro h <;>
    have hd := congrArg String.data h <;>
    simp [String.data_append] at hd

theorem itemIdKey_ne_creds (i : Nat) :
    itemIdKey i ≠ "customer_id" ∧ itemIdKey i ≠ "pin" :=
  items_key_ne_creds (toString i) "][id]"

theorem itemTypeKey_ne_creds (i : Nat) :
    itemTypeKey i ≠ "customer_id" ∧ itemTypeKey i ≠ "pin" :=
  items_key_ne_creds (toString i) "][type]"

theorem moveItemLoop_keys (fid : Option Json) :
    ∀ (items : List PremiumizeFile) (idx : Nat) (params res : Dict),
      moveItemLoop fid items idx params = .ok res →
      ∀ k ∈ dictKeys res,
        k ∈ dictKeys params ∨ ∃ i, k = itemIdKey i ∨ k = itemTypeKey i := by
  intro items
  induction items with
  | nil =>
      intro idx params res h k hk
      simp [moveItemLoop] at h
      subst h
      exact .inl hk
  | cons it rest ih =>
      intro idx params res h k hk
      simp only [moveItemLoop] at h
      cases hid : it.getattr "id" with
      | error e => rw [hid] at h; simp at h
      | ok iid =>
        rw [hid] at h
        dsimp only at h
        by_cases hc : ¬ (iid.pyStr = pyStrOpt fid)
        · rw [if_pos hc] at h
          cases hty : it.getattr "type" with
          | error e => rw [hty] at h; simp at h
          | ok ity =>
            rw [hty] at h
            dsimp only at h
            rcases ih (idx + 1) _ res h k hk with hin | hex
            · rcases dictKeys_dictInsert _ _ _ k hin with h1 | h1
              · exact .inr ⟨idx, .inr h1⟩
              · rcases dictKeys_dictInsert _ _ _ k h1 with h2 | h2
                · exact .inr ⟨idx, .inl h2⟩
                · exact .inl h2
            · exact .inr hex
        · rw [if_neg hc] at h
          exact ih (idx + 1) params res h k hk

/-- Claim C9: the client's `user_id`, `user_pin` and `base_url` are fixed at
construction (the embedded operations are pure functions of the immutable
`Premiumize` record and return no modified client), and every HTTP request
any operation issues goes to `base_url + endpoint` with a query-parameter
dict that is exactly the pair `customer_id`/`pin` (holding the
construction-time credentials) followed by the operation-specific
parameters, which never touch the two credential keys. -/
theorem claim_C9 (c : Premiumize) (resp : Dict)
    (idv nn src ttyp tid namev : Json) (oid opid ofid : Option Json)
    (item1 : PremiumizeFile) (items : PremiumizeFile ⊕ List PremiumizeFile) :
    (∀ r ∈ (c.list_folder oid resp).1, goodReq c "/folder/list" r) ∧
    (∀ r ∈ (c.create_folder namev opid resp).1, goodReq c "/folder/create" r) ∧
    (∀ r ∈ (c.delete_folder idv resp).1, goodReq c "/folder/delete" r) ∧
    (∀ r ∈ (c.rename_folder idv nn resp).1, goodReq c "/folder/rename" r) ∧
    (∀ r ∈ (c.move_item items ofid resp).1, goodReq c "/folder/paste" r) ∧
    (∀ r ∈ (c.delete_item item1 resp).1, goodReq c "/item/delete" r) ∧
    (∀ r ∈ (c.browse_torrent item1 resp).1, goodReq c "/torrent/browse" r) ∧
    (∀ r ∈ (c.start_transfer src ofid resp).1, goodReq c "/transfer/create" r) ∧
    (∀ r ∈ (c.list_transfer resp).1, goodReq c "/transfer/list" r) ∧
    (∀ r ∈ (c.clear_finished_transfer resp).1, goodReq c "/transfer/clearfinished" r) ∧
    (∀ r ∈ (c.abort_transfer ttyp tid resp).1, goodReq c "/transfer/delete" r) := by
  refine ⟨?_, ?_, ?_, ?_, ?_, ?_, ?_, ?_, ?_, ?_, ?_⟩
  · intro r hr
    cases oid with
    | none =>
        simp only [Premiumize.list_folder, List.mem_singleton] at hr
        subst hr
        exact goodReq_request c _ _ resp (by intro k hk; simp [dictKeys] at hk)
    | some i =>
        simp only [Premiumize.list_folder, List.mem_singleton] at hr
        subst hr
        refine goodReq_request c _ _ resp ?_
        intro k hk
        simp [dictKeys] at hk
        subst hk
        exact ⟨by decide, by decide⟩
  · intro r hr
    cases opid with
    | none =>
        simp only [Premiumize.create_folder, List.mem_singleton] at hr
        subst hr
        refine goodReq_request c _ _ resp ?_
        intro k hk
        simp [dictKeys] at hk
        subst hk
        exact ⟨by decide, by decide⟩
    | some p =>
        simp only [Premiumize.create_folder, List.mem_singleton] at hr
        subst hr
        refine goodReq_request c _ _ resp ?_
        intro k hk
        simp [dictInsert, dictKeys] at hk
        rcases hk with rfl | rfl
        · exact ⟨by decide, by decide⟩
        · exact ⟨by decide, by decide⟩
  · intro r hr
    simp only [Premiumize.delete_folder, List.mem_singleton] at hr
    subst hr
    refine goodReq_request c _ _ resp ?_
    intro k hk
    simp [dictKeys] at hk
    subst hk
    exact ⟨by decide, by decide⟩
  · intro r hr
    simp only [Premiumize.rename_folder, List.mem_singleton] at hr
    subst hr
    refine goodReq_request c _ _ resp ?_
    intro k hk
    simp [dictKeys] at hk
    rcases hk with rfl | rfl
    · exact ⟨by decide, by decide⟩
    · exact ⟨by decide, by decide⟩
  · intro r hr
    have hp0 : ∀ k ∈ dictKeys (match ofid with
        | none => ([] : Dict) | some f => [("id", f)]),
        k ≠ "customer_id" ∧ k ≠ "pin" := by
      cases ofid with
      | none => intro k hk; simp [dictKeys] at hk
      | some f =>
          intro k hk
          simp [dictKeys] at hk
          subst hk
          exact ⟨by decide, by decide⟩
    cases items with
    | inl it =>
        cases h1 : it.getattr "id" with
        | error e => simp [Premiumize.move_item, h1] at hr
        | ok iid =>
          cases h2 : it.getattr "type" with
          | error e => simp [Premiumize.move_item, h1, h2] at hr
          | ok ity =>
            simp only [Premiumize.move_item, h1, h2, List.mem_singleton] at hr
            subst hr
            refine goodReq_request c _ _ resp ?_
            intro k hk
            rcases dictKeys_dictInsert _ _ _ k hk with rfl | h3
            · exact ⟨by decide, by decide⟩
            · rcases dictKeys_dictInsert _ _ _ k h3 with rfl | h4
              · exact ⟨by decide, by decide⟩
              · exact hp0 k h4
    | inr lst =>
        simp only [Premiumize.move_item] at hr
        revert hr
        generalize hg : (match ofid with
          | none => ([] : Dict) | some f => [("id", f)]) = p0
        intro hr
        have hp0g : ∀ k ∈ dictKeys p0, k ≠ "customer_id" ∧ k ≠ "pin" :=
          hg ▸ hp0
        cases hloop : moveItemLoop ofid lst 0 p0 with
        | error e => rw [hloop] at hr; simp at hr
        | ok res =>
          rw [hloop] at hr
          dsimp only at hr
          by_cases hlen : res.length < 2
          · rw [if_pos hlen] at hr; simp at hr
          · rw [if_neg hlen] at hr
            simp only [List.mem_singleton] at hr
            subst hr
            refine goodReq_request c _ _ resp ?_
            intro k hk
            rcases moveItemLoop_keys ofid lst 0 p0 res hloop k hk with h3 | ⟨i, h4 | h4⟩
            · exact hp0g k h3
            · exact h4 ▸ itemIdKey_ne_creds i
            · exact h4 ▸ itemTypeKey_ne_creds i
  · intro r hr
    cases h1 : item1.getattr "type" with
    | error e => simp [Premiumize.delete_item, h1] at hr
    | ok ty =>
      cases h2 : item1.getattr "id" with
      | error e => simp [Premiumize.delete_item, h1, h2] at hr
      | ok iid =>
        simp only [Premiumize.delete_item, h1, h2, List.mem_singleton] at hr
        subst hr
        refine goodReq_request c _ _ resp ?_
        intro k hk
        simp [dictKeys] at hk
        rcases hk with rfl | rfl
        · exact ⟨by decide, by decide⟩
        · exact ⟨by decide, by decide⟩
  · intro r hr
    cases h1 : item1.getattr "type" with
    | error e => simp [Premiumize.browse_torrent, h1] at hr
    | ok ty =>
      by_cases hty : ¬ (ty = Json.str "torrent")
      · simp [Premiumize.browse_torrent, h1, hty] at hr
      · cases h2 : item1.getattr "hash" with
        | error e => simp [Premiumize.browse_torrent, h1, hty, h2] at hr
        | ok hsh =>
          simp only [Premiumize.browse_torrent, h1, h2, hty, if_false,
            List.mem_singleton] at hr
          subst hr
          refine goodReq_request c _ _ resp ?_
          intro k hk
          simp [dictKeys] at hk
          subst hk
          exact ⟨by decide, by decide⟩
  · intro r hr
    cases ofid with
    | none =>
        simp only [Premiumize.start_transfer, List.mem_singleton] at hr
        subst hr
        refine goodReq_request c _ _ resp ?_
        intro k hk
        simp [dictKeys] at hk
        rcases hk with rfl | rfl
        · exact ⟨by decide, by decide⟩
        · exact ⟨by decide, by decide⟩
    | some f =>
        simp only [Premiumize.start_transfer, List.mem_singleton] at hr
        subst hr
        refine goodReq_request c _ _ resp ?_
        intro k hk
        simp [dictInsert, dictKeys] at hk
        rcases hk with rfl | rfl | rfl
        · exact ⟨by decide, by decide⟩
        · exact ⟨by decide, by decide⟩
        · exact ⟨by decide, by decide⟩
  · intro r hr
    simp only [Premiumize.list_transfer, List.mem_singleton] at hr
    subst hr
    exact goodReq_request c _ _ resp (by intro k hk; simp [dictKeys] at hk)
  · intro r hr
    simp only [Premiumize.clear_finished_transfer, List.mem_singleton] at hr
    subst hr
    exact goodReq_request c _ _ resp (by intro k hk; simp [dictKeys] at hk)
  · intro r hr
    simp only [Premiumize.abort_transfer, List.mem_singleton] at hr
    subst hr
    refine goodReq_request c _ _ resp ?_
    intro k hk
    simp [dictKeys] at hk
    rcases hk with rfl | rfl
    · exact ⟨by decide, by decide⟩
    · exact ⟨by decide, by decide⟩

theorem claim_C9_witness :
    Request.mk ("b" ++ "/folder/delete")
        [("customer_id", Json.str "u"), ("pin", Json.str "p"), ("id", Json.str "3")]
      ∈ ((Premiumize.mk "u" "p" "b").delete_folder (Json.str "3")
          [("status", Json.str "ok")]).1 ∧
    goodReq (Premiumize.mk "u" "p" "b") "/folder/delete"
      (Request.mk ("b" ++ "/folder/delete")
        [("customer_id", Json.str "u"), ("pin", Json.str "p"), ("id", Json.str "3")]) :=
  ⟨by decide,
    (claim_C9 (Premiumize.mk "u" "p" "b") [("status", Json.str "ok")]
      (Json.str "3") (Json.str "n") (Json.str "magnet:x") (Json.str "torrent")
      (Json.str "9") (Json.str "nm") none none none
      ⟨[("id", Json.str "1"), ("type", Json.str "file")]⟩
      (Sum.inl ⟨[("id", Json.str "1"), ("type", Json.str "file")]⟩)).2.2.1
      (Request.mk ("b" ++ "/folder/delete")
        [("customer_id", Json.str "u"), ("pin", Json.str "p"), ("id", Json.str "3")])
      (by decide)⟩
